import Mathlib

/-!
# Teardown of the USB HID device class instance

A shallow embedding of `_ux_device_class_hid_uninitialize`
(`common/usbx_device_classes/src/ux_device_class_hid_uninitialize.c`).

The C function is straight-line code under preprocessor conditionals.  It reads
a few pointer fields and hands them to routines of the stack (thread delete,
memory free, event flags delete, mutex delete) or to the receiver's own
`uninitialize` entry.  The embedding runs the function over a typed memory and
records, in program order, every field read and every call together with the
argument passed.  A read through a pointer that addresses no object stops the
run (`none`).

The function contains no assignment through a pointer, so a run hands back the
memory it was given; a call is an event of the trace.  What the frees of a run
do to the memory is applied afterwards by `Memory.after`, for the question of
what a second call finds.
-/

namespace Usbx

/-- A pointer value: the address held by a C pointer. -/
abbrev Ptr := Nat

/-- The C type `UINT` of the completion status. -/
abbrev UINT := Nat

/-- Modelled from the spec: the null reference `UX_NULL` of `ux_api.h`, a header
that is not among the source files; a reference that is "absent/null" is
the address zero. -/
def UX_NULL : Ptr := 0

/-- The build configuration: the preprocessor symbols tested by the function and
the status constant it returns.  All of them are defined in headers that are not
among the source files, so each one is a parameter.
`UX_DEVICE_ENDPOINT_BUFFER_OWNER` is tested by value (`== 1`), the others by
`defined(...)`. -/
structure Config where
  UX_DEVICE_STANDALONE : Bool
  UX_DEVICE_ENDPOINT_BUFFER_OWNER : Int
  UX_DEVICE_CLASS_HID_ZERO_COPY : Bool
  UX_DEVICE_CLASS_HID_INTERRUPT_OUT_SUPPORT : Bool
  UX_DEVICE_CLASS_HID_OWN_ENDPOINT_BUFFER : Bool
  UX_SUCCESS : UINT
  deriving DecidableEq, Repr

/-- Modelled from the spec: the state of the delivery agent's thread object
(`{not-created, running, terminated}`); the thread type is declared in a header
that is not among the source files.  The function never inspects it: it
only passes the object's address on. -/
inductive UX_THREAD where
  | not_created
  | running
  | terminated
  deriving DecidableEq, Repr

/-- Modelled from the spec: an event-signal group embedded in the instance,
either created or not; its type is declared in a header that is not among the
source files.  The function never inspects it. -/
structure UX_EVENT_FLAGS_GROUP where
  created : Bool
  deriving DecidableEq, Repr

/-- Modelled from the spec: the mutex guarding the receive buffer, either created
or not; its type is declared in a header that is not among the source
files.  The function never inspects it. -/
structure UX_MUTEX where
  created : Bool
  deriving DecidableEq, Repr

/-- The command handed to the function: of `UX_SLAVE_CLASS_COMMAND` only the
field the function reads. -/
structure UX_SLAVE_CLASS_COMMAND where
  ux_slave_class_command_class_ptr : Ptr
  deriving DecidableEq, Repr

/-- The class container: of `UX_SLAVE_CLASS` only the fields the function uses. -/
structure UX_SLAVE_CLASS where
  ux_slave_class_instance : Ptr
  ux_slave_class_thread : UX_THREAD
  ux_slave_class_thread_stack : Ptr
  deriving DecidableEq, Repr

/-- One slot of the report event array: of `UX_DEVICE_CLASS_HID_EVENT` only the
field the function reads. -/
structure UX_DEVICE_CLASS_HID_EVENT where
  ux_device_class_hid_event_buffer : Ptr
  deriving DecidableEq, Repr

/-- The receiver: of `UX_DEVICE_CLASS_HID_RECEIVER` only the entry the function
calls, as the address of the routine stored in it. -/
structure UX_DEVICE_CLASS_HID_RECEIVER where
  ux_device_class_hid_receiver_uninitialize : Ptr
  deriving DecidableEq, Repr

/-- The HID instance: of `UX_SLAVE_CLASS_HID` only the fields the function uses. -/
structure UX_SLAVE_CLASS_HID where
  ux_device_class_hid_event_flags_group : UX_EVENT_FLAGS_GROUP
  ux_device_class_hid_event_array : Ptr
  ux_device_class_hid_read_mutex : UX_MUTEX
  ux_device_class_hid_receiver : Ptr
  ux_device_class_hid_endpoint_buffer : Ptr
  deriving DecidableEq, Repr

/-- The memory the function can reach, one table per object type.  A table maps
an address to the object stored there, or to `none` when the address holds no
such object (the null address included).  An event array is the list of its
slots, stored at the address of slot 0. -/
structure Memory where
  commands : Ptr → Option UX_SLAVE_CLASS_COMMAND
  classes : Ptr → Option UX_SLAVE_CLASS
  hids : Ptr → Option UX_SLAVE_CLASS_HID
  event_arrays : Ptr → Option (List UX_DEVICE_CLASS_HID_EVENT)
  receivers : Ptr → Option UX_DEVICE_CLASS_HID_RECEIVER

/-- The fields read by the function. -/
inductive Field where
  | ux_slave_class_command_class_ptr
  | ux_slave_class_instance
  | ux_slave_class_thread_stack
  | ux_device_class_hid_event_array
  | ux_device_class_hid_event_buffer
  | ux_device_class_hid_receiver
  | ux_device_class_hid_receiver_uninitialize
  | ux_device_class_hid_endpoint_buffer
  deriving DecidableEq, Repr

/-- The five argument expressions of the calls of `_ux_utility_memory_free`, in
the order of the source. -/
inductive Freed where
  /-- The argument `class_ptr -> ux_slave_class_thread_stack`. -/
  | thread_stack
  /-- The argument
  `hid -> ux_device_class_hid_event_array -> ux_device_class_hid_event_buffer`. -/
  | event_buffer
  /-- The argument `hid -> ux_device_class_hid_event_array`. -/
  | event_array
  /-- The argument `hid -> ux_device_class_hid_endpoint_buffer`. -/
  | endpoint_buffer
  /-- The argument `hid`, the instance itself. -/
  | hid
  deriving DecidableEq, Repr

/-- What the function does, as seen from outside: a read of a field through a
pointer, or a call with the value of its argument. -/
inductive Event where
  /-- A read of `obj -> field`. -/
  | read (obj : Ptr) (field : Field)
  /-- The call `_ux_device_thread_delete(&class_ptr -> ux_slave_class_thread)`. -/
  | thread_delete (class_ptr : Ptr)
  /-- The call `_ux_utility_memory_free(p)`, with the argument expression that
  evaluated to `p`. -/
  | memory_free (what : Freed) (p : Ptr)
  /-- The call
  `_ux_device_event_flags_delete(&hid -> ux_device_class_hid_event_flags_group)`. -/
  | event_flags_delete (hid : Ptr)
  /-- The call `_ux_device_mutex_delete(&hid -> ux_device_class_hid_read_mutex)`. -/
  | mutex_delete (hid : Ptr)
  /-- The call through the receiver's `ux_device_class_hid_receiver_uninitialize`
  entry: the routine called and the argument passed. -/
  | receiver_uninitialize (routine : Ptr) (arg : Ptr)
  deriving DecidableEq, Repr

/-- The state of a run: the memory and the events recorded so far. -/
structure Machine where
  mem : Memory
  trace : List Event

/-- A run: it threads the machine state and stops at an invalid read. -/
abbrev Exec := StateT Machine Option

/-- Record one event at the end of the trace. -/
def emit (e : Event) : Exec Unit :=
  fun s => some ((), { s with trace := s.trace ++ [e] })

/-- Read `obj -> field`, where `tbl` selects the table of the object's type: the
read is recorded, and the run stops when `obj` addresses no such object. -/
def load {α : Type} (tbl : Memory → Ptr → Option α) (obj : Ptr) (field : Field) : Exec α :=
  fun s =>
    match tbl s.mem obj with
    | some v => some (v, { s with trace := s.trace ++ [Event.read obj field] })
    | none => none

/-- Modelled from the spec: `_ux_device_thread_delete`, a routine of the stack
whose code is not among the source files ("terminate the schedulable
unit"); the call is recorded with the container whose thread is passed. -/
def _ux_device_thread_delete (class_ptr : Ptr) : Exec Unit :=
  emit (Event.thread_delete class_ptr)

/-- Modelled from the spec: `_ux_utility_memory_free`, a routine of the stack
whose code is not among the source files ("free"); the call is recorded
with its argument. -/
def _ux_utility_memory_free (what : Freed) (p : Ptr) : Exec Unit :=
  emit (Event.memory_free what p)

/-- Modelled from the spec: `_ux_device_event_flags_delete`, a routine of the
stack whose code is not among the source files ("destroy the event-signal
group"); the call is recorded with the instance whose group is passed. -/
def _ux_device_event_flags_delete (hid : Ptr) : Exec Unit :=
  emit (Event.event_flags_delete hid)

/-- Modelled from the spec: `_ux_device_mutex_delete`, a routine of the stack
whose code is not among the source files ("destroy the mutex"); the call is
recorded with the instance whose mutex is passed. -/
def _ux_device_mutex_delete (hid : Ptr) : Exec Unit :=
  emit (Event.mutex_delete hid)

/-- Modelled from the spec: the call through a receiver's
`ux_device_class_hid_receiver_uninitialize` entry; the routine stored there is
supplied by the receiver and is opaque to the class ("plugin internal contract
is opaque to this core"), so the call is recorded with its argument. -/
def call_receiver_uninitialize (routine : Ptr) (arg : Ptr) : Exec Unit :=
  emit ( Event.receiver_uninitialize routine arg)

/-- A block of statements under a preprocessor conditional
(`#if cond` ... `#endif`): compiled in when the condition holds, absent otherwise. -/
def pp_if (cond : Bool) (block : Exec Unit) : Exec Unit :=
  if cond then block else pure ()

/-- A C `if (cond) statement` without an `else`. -/
def c_if (cond : Bool) (statement : Exec Unit) : Exec Unit :=
  if cond then statement else pure ()

/-- The function `_ux_device_class_hid_uninitialize(command)`, statement by
statement. -/
def _ux_device_class_hid_uninitialize (cfg : Config) (command : Ptr) : Exec UINT := do
  -- class_ptr = command -> ux_slave_class_command_class_ptr;
  let class_ptr := (← load Memory.commands command
    Field.ux_slave_class_command_class_ptr).ux_slave_class_command_class_ptr
  -- hid = (UX_SLAVE_CLASS_HID *) class_ptr -> ux_slave_class_instance;
  let hid := (← load Memory.classes class_ptr
    Field.ux_slave_class_instance).ux_slave_class_instance
  -- if (hid != UX_NULL)
  c_if (hid != UX_NULL) do
    -- #if !defined(UX_DEVICE_STANDALONE)
    pp_if (!cfg.UX_DEVICE_STANDALONE) do
      _ux_device_thread_delete class_ptr
      _ux_utility_memory_free Freed.thread_stack (← load Memory.classes class_ptr
        Field.ux_slave_class_thread_stack).ux_slave_class_thread_stack
      _ux_device_event_flags_delete hid
    -- #if (UX_DEVICE_ENDPOINT_BUFFER_OWNER == 1) && defined(UX_DEVICE_CLASS_HID_ZERO_COPY)
    pp_if (cfg.UX_DEVICE_ENDPOINT_BUFFER_OWNER == 1 && cfg.UX_DEVICE_CLASS_HID_ZERO_COPY) do
      let event_array := (← load Memory.hids hid
        Field.ux_device_class_hid_event_array).ux_device_class_hid_event_array
      let event ← load (fun m p => (m.event_arrays p).bind List.head?) event_array
        Field.ux_device_class_hid_event_buffer
      _ux_utility_memory_free Freed.event_buffer event.ux_device_class_hid_event_buffer
    _ux_utility_memory_free Freed.event_array (← load Memory.hids hid
      Field.ux_device_class_hid_event_array).ux_device_class_hid_event_array
    -- #if defined(UX_DEVICE_CLASS_HID_INTERRUPT_OUT_SUPPORT)
    pp_if cfg.UX_DEVICE_CLASS_HID_INTERRUPT_OUT_SUPPORT do
      -- #if !defined(UX_DEVICE_STANDALONE)
      pp_if (!cfg.UX_DEVICE_STANDALONE) do
        _ux_device_mutex_delete hid
      -- if (hid -> ux_device_class_hid_receiver)
      c_if ((← load Memory.hids hid
          Field.ux_device_class_hid_receiver).ux_device_class_hid_receiver != UX_NULL) do
        let receiver := (← load Memory.hids hid
          Field.ux_device_class_hid_receiver).ux_device_class_hid_receiver
        let routine := UX_DEVICE_CLASS_HID_RECEIVER.ux_device_class_hid_receiver_uninitialize
          (← load Memory.receivers receiver Field.ux_device_class_hid_receiver_uninitialize)
        let arg := (← load Memory.hids hid
          Field.ux_device_class_hid_receiver).ux_device_class_hid_receiver
        call_receiver_uninitialize routine arg
    -- #if defined(UX_DEVICE_CLASS_HID_OWN_ENDPOINT_BUFFER)
    pp_if cfg.UX_DEVICE_CLASS_HID_OWN_ENDPOINT_BUFFER do
      _ux_utility_memory_free Freed.endpoint_buffer (← load Memory.hids hid
        Field.ux_device_class_hid_endpoint_buffer).ux_device_class_hid_endpoint_buffer
    -- _ux_utility_memory_free(hid);
    _ux_utility_memory_free Freed.hid hid
  -- return(UX_SUCCESS);
  return cfg.UX_SUCCESS

/-- The run of the function from a memory with nothing recorded yet: the status
returned and the final machine state, or `none` when a read was invalid. -/
def run (cfg : Config) (mem : Memory) (command : Ptr) : Option (UINT × Machine) :=
  _ux_device_class_hid_uninitialize cfg command { mem := mem, trace := [] }

/-- The pointers the function follows resolve: `command` addresses `c`, its class
pointer addresses `k`, and when the instance reference of `k` is not null it
addresses `h`; slot 0 of the event array of `h` is `ev` in the builds that read
it, and the receiver of `h`, when interrupt OUT is supported and the reference
is not null, is `r`. -/
abbrev Resolves (cfg : Config) (mem : Memory) (command : Ptr) (c : UX_SLAVE_CLASS_COMMAND)
    (k : UX_SLAVE_CLASS) (h : UX_SLAVE_CLASS_HID) (ev : UX_DEVICE_CLASS_HID_EVENT)
    (r : UX_DEVICE_CLASS_HID_RECEIVER) : Prop :=
  mem.commands command = some c ∧
  mem.classes c.ux_slave_class_command_class_ptr = some k ∧
  (k.ux_slave_class_instance ≠ UX_NULL →
    mem.hids k.ux_slave_class_instance = some h ∧
    (cfg.UX_DEVICE_ENDPOINT_BUFFER_OWNER = 1 → cfg.UX_DEVICE_CLASS_HID_ZERO_COPY = true →
      (mem.event_arrays h.ux_device_class_hid_event_array).bind List.head? = some ev) ∧
    (cfg.UX_DEVICE_CLASS_HID_INTERRUPT_OUT_SUPPORT = true →
      h.ux_device_class_hid_receiver ≠ UX_NULL →
      mem.receivers h.ux_device_class_hid_receiver = some r))

/-- An event that is a call (not a read). -/
def Event.isCall : Event → Bool
  | Event.read _ _ => false
  | _ => true

/-- The calls of a trace, in order. -/
def calls (t : List Event) : List Event := t.filter Event.isCall

/-- A call of `_ux_device_thread_delete`. -/
def Event.isThreadDelete : Event → Bool
  | Event.thread_delete _ => true
  | _ => false

/-- A call of `_ux_utility_memory_free` on the given argument expression. -/
def Event.isFree (what : Freed) : Event → Bool
  | Event.memory_free w _ => decide (w = what)
  | _ => false

/-- A call of `_ux_device_event_flags_delete`. -/
def Event.isEventFlagsDelete : Event → Bool
  | Event.event_flags_delete _ => true
  | _ => false

/-- A call of `_ux_device_mutex_delete`. -/
def Event.isMutexDelete : Event → Bool
  | Event.mutex_delete _ => true
  | _ => false

/-- A call through a receiver's uninitialize entry. -/
def Event.isReceiverCall : Event → Bool
  | Event.receiver_uninitialize _ _ => true
  | _ => false

/-- The fields that belong to the HID instance. -/
def Field.ofInstance : Field → Bool
  | Field.ux_device_class_hid_event_array => true
  | Field.ux_device_class_hid_receiver => true
  | Field.ux_device_class_hid_endpoint_buffer => true
  | _ => false

/-- An event that touches the instance's storage: a read of one of its fields, or
a call that is handed the address of its event flags group or of its read
mutex. -/
def Event.usesInstance : Event → Bool
  | Event.read _ f => f.ofInstance
  | Event.event_flags_delete _ => true
  | Event.mutex_delete _ => true
  | _ => false

/-- The memory with the receiver reference of the instance at `hid` replaced by
`p`, everything else as it was. -/
def Memory.with_receiver (mem : Memory) (hid : Ptr) (p : Ptr) : Memory :=
  { mem with hids := fun q =>
      if q = hid then (mem.hids q).map (fun h => { h with ux_device_class_hid_receiver := p })
      else mem.hids q }

/-- The events of the two statements before the sanity check: the reads of the
class pointer and of the instance reference. -/
def entry_events (command : Ptr) (c : UX_SLAVE_CLASS_COMMAND) : List Event :=
  [Event.read command Field.ux_slave_class_command_class_ptr,
   Event.read c.ux_slave_class_command_class_ptr Field.ux_slave_class_instance]

/-- The events of the block that removes the thread, its stack and the event
flags group (source lines 110 to 120). -/
def thread_events (cfg : Config) (c : UX_SLAVE_CLASS_COMMAND) (k : UX_SLAVE_CLASS) :
    List Event :=
  if cfg.UX_DEVICE_STANDALONE = true then [] else
    [Event.thread_delete c.ux_slave_class_command_class_ptr,
     Event.read c.ux_slave_class_command_class_ptr Field.ux_slave_class_thread_stack,
     Event.memory_free Freed.thread_stack k.ux_slave_class_thread_stack,
     Event.event_flags_delete k.ux_slave_class_instance]

/-- The events of the block that frees the event buffer (source lines 123 to
125). -/
def event_buffer_events (cfg : Config) (k : UX_SLAVE_CLASS) (h : UX_SLAVE_CLASS_HID)
    (ev : UX_DEVICE_CLASS_HID_EVENT) : List Event :=
  if cfg.UX_DEVICE_ENDPOINT_BUFFER_OWNER = 1 ∧ cfg.UX_DEVICE_CLASS_HID_ZERO_COPY = true then
    [Event.read k.ux_slave_class_instance Field.ux_device_class_hid_event_array,
     Event.read h.ux_device_class_hid_event_array Field.ux_device_class_hid_event_buffer,
     Event.memory_free Freed.event_buffer ev.ux_device_class_hid_event_buffer]
  else []

/-- The events of the statement that frees the event array (source line 126). -/
def event_array_events (k : UX_SLAVE_CLASS) (h : UX_SLAVE_CLASS_HID) : List Event :=
  [Event.read k.ux_slave_class_instance Field.ux_device_class_hid_event_array,
   Event.memory_free Freed.event_array h.ux_device_class_hid_event_array]

/-- The events of the statement that deletes the read mutex (source lines 130 to
134). -/
def mutex_events (cfg : Config) (k : UX_SLAVE_CLASS) : List Event :=
  if cfg.UX_DEVICE_CLASS_HID_INTERRUPT_OUT_SUPPORT = true then
    (if cfg.UX_DEVICE_STANDALONE = true then [] else
      [Event.mutex_delete k.ux_slave_class_instance])
  else []

/-- The events of the statement that uninitializes the receiver (source lines
136 to 139). -/
def receiver_events (cfg : Config) (k : UX_SLAVE_CLASS) (h : UX_SLAVE_CLASS_HID)
    (r : UX_DEVICE_CLASS_HID_RECEIVER) : List Event :=
  if cfg.UX_DEVICE_CLASS_HID_INTERRUPT_OUT_SUPPORT = true then
    Event.read k.ux_slave_class_instance Field.ux_device_class_hid_receiver ::
      (if h.ux_device_class_hid_receiver = UX_NULL then [] else
        [Event.read k.ux_slave_class_instance Field.ux_device_class_hid_receiver,
         Event.read h.ux_device_class_hid_receiver
           Field.ux_device_class_hid_receiver_uninitialize,
         Event.read k.ux_slave_class_instance Field.ux_device_class_hid_receiver,
         Event.receiver_uninitialize
          ( UX_DEVICE_CLASS_HID_RECEIVER.ux_device_class_hid_receiver_uninitialize r)
           h.ux_device_class_hid_receiver])
  else []

/-- The events of the block that frees the endpoint buffer (source lines 142 to
144). -/
def endpoint_buffer_events (cfg : Config) (k : UX_SLAVE_CLASS) (h : UX_SLAVE_CLASS_HID) :
    List Event :=
  if cfg.UX_DEVICE_CLASS_HID_OWN_ENDPOINT_BUFFER = true then
    [Event.read k.ux_slave_class_instance Field.ux_device_class_hid_endpoint_buffer,
     Event.memory_free Freed.endpoint_buffer h.ux_device_class_hid_endpoint_buffer]
  else []

/-- The events of a run, block after block. -/
def teardown_events (cfg : Config) (command : Ptr) (c : UX_SLAVE_CLASS_COMMAND)
    (k : UX_SLAVE_CLASS) (h : UX_SLAVE_CLASS_HID) (ev : UX_DEVICE_CLASS_HID_EVENT)
    (r : UX_DEVICE_CLASS_HID_RECEIVER) : List Event :=
  entry_events command c ++
    (if k.ux_slave_class_instance = UX_NULL then [] else
      thread_events cfg c k ++ event_buffer_events cfg k h ev ++ event_array_events k h ++
        mutex_events cfg k ++ receiver_events cfg k h r ++ endpoint_buffer_events cfg k h ++
        [Event.memory_free Freed.hid k.ux_slave_class_instance])

/-- The statement `Runs mem p v evs`: started in memory `mem`, whatever was recorded before, the
program `p` returns `v`, leaves the memory as it was and records exactly `evs`. -/
def Runs {α : Type} (mem : Memory) (p : Exec α) (v : α) (evs : List Event) : Prop :=
  ∀ t, p { mem := mem, trace := t } = some (v, { mem := mem, trace := t ++ evs })

/-! ## Example memories -/

/-- A fully constructed instance: the command at 10, the class container at 20,
the instance at 30 with its thread stack at 40, an event array of four slots at
50 whose buffers lie at 100, 108, 116 and 124, a receiver at 60 whose
uninitialize routine is at 900, and an endpoint buffer at 70. -/
def full_memory : Memory where
  commands := fun p => if p = 10 then some ⟨20⟩ else none
  classes := fun p => if p = 20 then some ⟨30, UX_THREAD.running, 40⟩ else none
  hids := fun p => if p = 30 then some ⟨⟨true⟩, 50, ⟨true⟩, 60, 70⟩ else none
  event_arrays := fun p => if p = 50 then some [⟨100⟩, ⟨108⟩, ⟨116⟩, ⟨124⟩] else none
  receivers := fun p => if p = 60 then some ⟨900⟩ else none

/-- An instance left behind by a construction that stopped after the event array
was allocated: the thread was never created and has no stack, the event flags
group and the mutex were never created, no receiver is attached. -/
def partial_memory : Memory where
  commands := fun p => if p = 10 then some ⟨20⟩ else none
  classes := fun p => if p = 20 then some ⟨30, UX_THREAD.not_created, UX_NULL⟩ else none
  hids := fun p => if p = 30 then some ⟨⟨false⟩, 50, ⟨false⟩, UX_NULL, UX_NULL⟩ else none
  event_arrays := fun p => if p = 50 then some [⟨0⟩, ⟨0⟩, ⟨0⟩, ⟨0⟩] else none
  receivers := fun _ => none

/-- A class container whose instance reference is null. -/
def absent_memory : Memory where
  commands := fun p => if p = 10 then some ⟨20⟩ else none
  classes := fun p => if p = 20 then some ⟨UX_NULL, UX_THREAD.not_created, UX_NULL⟩ else none
  hids := fun _ => none
  event_arrays := fun _ => none
  receivers := fun _ => none

/-- Threaded build with interrupt OUT support and zero copy, the class owning the
event buffers (`UX_DEVICE_ENDPOINT_BUFFER_OWNER == 1`), no class-owned endpoint
buffer. -/
def scenario_config : Config :=
  { UX_DEVICE_STANDALONE := false, UX_DEVICE_ENDPOINT_BUFFER_OWNER := 1,
    UX_DEVICE_CLASS_HID_ZERO_COPY := true, UX_DEVICE_CLASS_HID_INTERRUPT_OUT_SUPPORT := true,
    UX_DEVICE_CLASS_HID_OWN_ENDPOINT_BUFFER := false, UX_SUCCESS := 0 }

/-- Threaded build with nothing else configured. -/
def threaded_config : Config :=
  { UX_DEVICE_STANDALONE := false, UX_DEVICE_ENDPOINT_BUFFER_OWNER := 0,
    UX_DEVICE_CLASS_HID_ZERO_COPY := false, UX_DEVICE_CLASS_HID_INTERRUPT_OUT_SUPPORT := false,
    UX_DEVICE_CLASS_HID_OWN_ENDPOINT_BUFFER := false, UX_SUCCESS := 0 }

/-- Threaded build with zero copy, the event buffers not owned by the class
(`UX_DEVICE_ENDPOINT_BUFFER_OWNER == 0`). -/
def zero_copy_borrowed_config : Config :=
  { UX_DEVICE_STANDALONE := false, UX_DEVICE_ENDPOINT_BUFFER_OWNER := 0,
    UX_DEVICE_CLASS_HID_ZERO_COPY := true, UX_DEVICE_CLASS_HID_INTERRUPT_OUT_SUPPORT := true,
    UX_DEVICE_CLASS_HID_OWN_ENDPOINT_BUFFER := false, UX_SUCCESS := 0 }

/-- Standalone build with interrupt OUT support and a class-owned endpoint
buffer. -/
def standalone_config : Config :=
  { UX_DEVICE_STANDALONE := true, UX_DEVICE_ENDPOINT_BUFFER_OWNER := 1,
    UX_DEVICE_CLASS_HID_ZERO_COPY := false, UX_DEVICE_CLASS_HID_INTERRUPT_OUT_SUPPORT := true,
    UX_DEVICE_CLASS_HID_OWN_ENDPOINT_BUFFER := true, UX_SUCCESS := 0 }

/-- Threaded build with every option on: interrupt OUT support, zero copy, the
class owning the event buffers and the endpoint buffer. -/
def every_option_config : Config :=
  { UX_DEVICE_STANDALONE := false, UX_DEVICE_ENDPOINT_BUFFER_OWNER := 1,
    UX_DEVICE_CLASS_HID_ZERO_COPY := true, UX_DEVICE_CLASS_HID_INTERRUPT_OUT_SUPPORT := true,
    UX_DEVICE_CLASS_HID_OWN_ENDPOINT_BUFFER := true, UX_SUCCESS := 0 }

/-! ## How programs run -/

theorem Runs.pure {α : Type} (mem : Memory) (v : α) : Runs mem (pure v) v [] := by
  intro t; simp [Pure.pure, StateT.pure]

theorem Runs.emit (mem : Memory) (e : Event) : Runs mem (emit e) () [e] := by
  intro t; rfl

theorem Runs.load {α : Type} {mem : Memory} {tbl : Memory → Ptr → Option α} {obj : Ptr}
    {v : α} (field : Field) (h : tbl mem obj = some v) :
    Runs mem (load tbl obj field) v [Event.read obj field] := by
  intro t; simp [Usbx.load, h]

theorem Runs.bind {α β : Type} {mem : Memory} {p : Exec α} {f : α → Exec β} {v : α} {w : β}
    {e₁ e₂ : List Event} (hp : Runs mem p v e₁) (hf : Runs mem (f v) w e₂) :
    Runs mem (p >>= f) w (e₁ ++ e₂) := by
  intro t
  simp [Bind.bind, StateT.bind, hp t, hf (t ++ e₁)]

theorem Runs.pp_if {mem : Memory} {c : Bool} {p : Exec Unit}
    {e : List Event} (hp : c = true → Runs mem p () e) :
    Runs mem (pp_if c p) () (if c = true then e else []) := by
  cases c
  · simpa [Usbx.pp_if] using Runs.pure mem ()
  · simpa [Usbx.pp_if] using hp rfl

theorem Runs.c_if {mem : Memory} {c : Bool} {p : Exec Unit}
    {e : List Event} (hp : c = true → Runs mem p () e) :
    Runs mem (c_if c p) () (if c = true then e else []) := by
  cases c
  · simpa [Usbx.c_if] using Runs.pure mem ()
  · simpa [Usbx.c_if] using hp rfl

theorem Runs.congr {α : Type} {mem : Memory} {p : Exec α} {v : α} {e e' : List Event}
    (h : Runs mem p v e) (he : e = e') : Runs mem p v e' := he ▸ h

/-- When the pointers resolve, the function returns `UX_SUCCESS`, leaves the
memory as it was and records `teardown_events`. -/
theorem runs_uninitialize (cfg : Config) (mem : Memory) (command : Ptr)
    (c : UX_SLAVE_CLASS_COMMAND) (k : UX_SLAVE_CLASS) (h : UX_SLAVE_CLASS_HID)
    (ev : UX_DEVICE_CLASS_HID_EVENT) (r : UX_DEVICE_CLASS_HID_RECEIVER)
    (hres : Resolves cfg mem command c k h ev r) :
    Runs mem ( _ux_device_class_hid_uninitialize cfg command) cfg.UX_SUCCESS
      (teardown_events cfg command c k h ev r) := by
  obtain ⟨hc, hk, hrest⟩ := hres
  unfold _ux_device_class_hid_uninitialize
  apply Runs.congr
  case h =>
    apply Runs.bind (Runs.load _ hc)
    apply Runs.bind (Runs.load _ hk)
    dsimp only
    apply Runs.bind
    case hf => exact Runs.pure _ _
    apply Runs.c_if
    intro hn
    have hn' : k.ux_slave_class_instance ≠ UX_NULL := by simpa using hn
    obtain ⟨hh, hev, hr⟩ := hrest hn'
    apply Runs.bind
    · apply Runs.pp_if
      intro _
      apply Runs.bind (Runs.emit _ _)
      apply Runs.bind (Runs.load _ hk)
      apply Runs.bind (Runs.emit _ _)
      exact Runs.emit _ _
    apply Runs.bind
    · apply Runs.pp_if
      intro hz
      have hz' : cfg.UX_DEVICE_ENDPOINT_BUFFER_OWNER = 1 ∧
          cfg.UX_DEVICE_CLASS_HID_ZERO_COPY = true := by simpa using hz
      apply Runs.bind (Runs.load _ hh)
      apply Runs.bind (Runs.load _ (hev hz'.1 hz'.2))
      exact Runs.emit _ _
    apply Runs.bind (Runs.load _ hh)
    apply Runs.bind (Runs.emit _ _)
    apply Runs.bind
    · apply Runs.pp_if
      intro hio
      apply Runs.bind
      · apply Runs.pp_if
        intro _
        exact Runs.emit _ _
      apply Runs.bind (Runs.load _ hh)
      apply Runs.c_if
      intro hrn
      have hrn' : h.ux_device_class_hid_receiver ≠ UX_NULL := by simpa using hrn
      apply Runs.bind (Runs.load _ hh)
      apply Runs.bind (Runs.load _ (hr hio hrn'))
      apply Runs.bind (Runs.load _ hh)
      exact Runs.emit _ _
    apply Runs.bind
    · apply Runs.pp_if
      intro _
      apply Runs.bind (Runs.load _ hh)
      exact Runs.emit _ _
    exact Runs.emit _ _
  case he =>
    cases hsa : cfg.UX_DEVICE_STANDALONE <;>
      cases hio : cfg.UX_DEVICE_CLASS_HID_INTERRUPT_OUT_SUPPORT <;>
      simp [teardown_events, entry_events, thread_events, event_buffer_events,
        event_array_events, mutex_events, receiver_events, endpoint_buffer_events, hsa, hio]

/-- The run of the function when the pointers resolve. -/
theorem run_eq (cfg : Config) (mem : Memory) (command : Ptr)
    (c : UX_SLAVE_CLASS_COMMAND) (k : UX_SLAVE_CLASS) (h : UX_SLAVE_CLASS_HID)
    (ev : UX_DEVICE_CLASS_HID_EVENT) (r : UX_DEVICE_CLASS_HID_RECEIVER)
    (hres : Resolves cfg mem command c k h ev r) :
    run cfg mem command = some (cfg.UX_SUCCESS,
      { mem := mem, trace := teardown_events cfg command c k h ev r }) := by
  simpa [run] using runs_uninitialize cfg mem command c k h ev r hres []

/-- A program followed by `pure v` returns `v` whenever it returns. -/
theorem status_of_bind_pure {α β : Type} (p : Exec α) (v : β) (s : Machine) (x : β)
    (s' : Machine) (h : (p >>= fun _ => (pure v : Exec β)) s = some (x, s')) : x = v := by
  simp only [Bind.bind, StateT.bind] at h
  cases hp : p s with
  | none => simp [hp, Option.bind] at h
  | some a =>
    simp [hp, Option.bind, Pure.pure, StateT.pure] at h
    exact h.1.symm

/-- A sequence that returns has a first part that returns. -/
theorem bind_eq_some {α β : Type} (p : Exec α) (f : α → Exec β) (s : Machine)
    (r : β × Machine) (h : (p >>= f) s = some r) :
    ∃ a s₁, p s = some (a, s₁) ∧ f a s₁ = some r := by
  simp only [Bind.bind, StateT.bind] at h
  cases hp : p s with
  | none => simp [hp, Option.bind] at h
  | some a => exact ⟨a.1, a.2, rfl, by simpa [hp, Option.bind] using h⟩

/-- Whatever the memory, a run that returns returns `UX_SUCCESS`. -/
theorem status_of_run (cfg : Config) (mem : Memory) (command : Ptr) (status : UINT)
    (m' : Machine) (h : run cfg mem command = some (status, m')) :
    status = cfg.UX_SUCCESS := by
  unfold run _ux_device_class_hid_uninitialize at h
  obtain ⟨a, s₁, -, h₁⟩ := bind_eq_some _ _ _ _ h
  obtain ⟨b, s₂, -, h₂⟩ := bind_eq_some _ _ _ _ h₁
  exact status_of_bind_pure _ _ _ _ _ h₂


/-! ## The calls of each block -/

theorem calls_entry_events (command : Ptr) (c : UX_SLAVE_CLASS_COMMAND) :
    calls (entry_events command c) = [] := by
  simp [calls, entry_events, Event.isCall]

theorem calls_thread_events (cfg : Config) (c : UX_SLAVE_CLASS_COMMAND) (k : UX_SLAVE_CLASS) :
    calls (thread_events cfg c k) =
      if cfg.UX_DEVICE_STANDALONE = true then [] else
        [Event.thread_delete c.ux_slave_class_command_class_ptr,
         Event.memory_free Freed.thread_stack k.ux_slave_class_thread_stack,
         Event.event_flags_delete k.ux_slave_class_instance] := by
  cases hsa : cfg.UX_DEVICE_STANDALONE <;> simp [calls, thread_events, Event.isCall, hsa]

theorem calls_event_buffer_events (cfg : Config) (k : UX_SLAVE_CLASS) (h : UX_SLAVE_CLASS_HID)
    (ev : UX_DEVICE_CLASS_HID_EVENT) :
    calls (event_buffer_events cfg k h ev) =
      if cfg.UX_DEVICE_ENDPOINT_BUFFER_OWNER = 1 ∧ cfg.UX_DEVICE_CLASS_HID_ZERO_COPY = true then
        [Event.memory_free Freed.event_buffer ev.ux_device_class_hid_event_buffer]
      else [] := by
  unfold event_buffer_events
  split <;> simp [calls, Event.isCall]

theorem calls_event_array_events (k : UX_SLAVE_CLASS) (h : UX_SLAVE_CLASS_HID) :
    calls (event_array_events k h) =
      [Event.memory_free Freed.event_array h.ux_device_class_hid_event_array] := by
  simp [calls, event_array_events, Event.isCall]

theorem calls_mutex_events (cfg : Config) (k : UX_SLAVE_CLASS) :
    calls (mutex_events cfg k) = mutex_events cfg k := by
  cases hsa : cfg.UX_DEVICE_STANDALONE <;>
    cases hio : cfg.UX_DEVICE_CLASS_HID_INTERRUPT_OUT_SUPPORT <;>
    simp [calls, mutex_events, Event.isCall, hsa, hio]

theorem calls_receiver_events (cfg : Config) (k : UX_SLAVE_CLASS) (h : UX_SLAVE_CLASS_HID)
    (r : UX_DEVICE_CLASS_HID_RECEIVER) :
    calls (receiver_events cfg k h r) =
      if cfg.UX_DEVICE_CLASS_HID_INTERRUPT_OUT_SUPPORT = true ∧
          h.ux_device_class_hid_receiver ≠ UX_NULL then
        [ Event.receiver_uninitialize
          ( UX_DEVICE_CLASS_HID_RECEIVER.ux_device_class_hid_receiver_uninitialize r)
          h.ux_device_class_hid_receiver]
      else [] := by
  by_cases hrn : h.ux_device_class_hid_receiver = UX_NULL <;>
    cases hio : cfg.UX_DEVICE_CLASS_HID_INTERRUPT_OUT_SUPPORT <;>
    simp [calls, receiver_events, Event.isCall, hrn, hio]

theorem calls_endpoint_buffer_events (cfg : Config) (k : UX_SLAVE_CLASS)
    (h : UX_SLAVE_CLASS_HID) :
    calls (endpoint_buffer_events cfg k h) =
      if cfg.UX_DEVICE_CLASS_HID_OWN_ENDPOINT_BUFFER = true then
        [Event.memory_free Freed.endpoint_buffer h.ux_device_class_hid_endpoint_buffer]
      else [] := by
  cases hoeb : cfg.UX_DEVICE_CLASS_HID_OWN_ENDPOINT_BUFFER <;>
    simp [calls, endpoint_buffer_events, Event.isCall, hoeb]

/-- The calls of a run on a non-null instance, block after block. -/
theorem calls_teardown_events (cfg : Config) (command : Ptr) (c : UX_SLAVE_CLASS_COMMAND)
    (k : UX_SLAVE_CLASS) (h : UX_SLAVE_CLASS_HID) (ev : UX_DEVICE_CLASS_HID_EVENT)
    (r : UX_DEVICE_CLASS_HID_RECEIVER) (hn : k.ux_slave_class_instance ≠ UX_NULL) :
    calls (teardown_events cfg command c k h ev r) =
      calls (thread_events cfg c k) ++ calls (event_buffer_events cfg k h ev) ++
        [Event.memory_free Freed.event_array h.ux_device_class_hid_event_array] ++
        mutex_events cfg k ++ calls (receiver_events cfg k h r) ++
        calls (endpoint_buffer_events cfg k h) ++
        [Event.memory_free Freed.hid k.ux_slave_class_instance] := by
  have h1 := calls_entry_events command c
  have h2 := calls_event_array_events k h
  have h3 := calls_mutex_events cfg k
  unfold calls at h1 h2 h3 ⊢
  simp [teardown_events, hn, List.filter_append, h1, h2, h3, Event.isCall]

/-- With the receiver reference replaced by null the pointers still resolve. -/
theorem resolves_with_receiver_null (cfg : Config) (mem : Memory) (command : Ptr)
    (c : UX_SLAVE_CLASS_COMMAND) (k : UX_SLAVE_CLASS) (h : UX_SLAVE_CLASS_HID)
    (ev : UX_DEVICE_CLASS_HID_EVENT) (r : UX_DEVICE_CLASS_HID_RECEIVER)
    (hres : Resolves cfg mem command c k h ev r) :
    Resolves cfg (mem.with_receiver k.ux_slave_class_instance UX_NULL) command c k
      { h with ux_device_class_hid_receiver := UX_NULL } ev r := by
  obtain ⟨hc, hk, hrest⟩ := hres
  refine ⟨hc, hk, fun hn => ?_⟩
  obtain ⟨hh, hev, -⟩ := hrest hn
  refine ⟨by simp [Memory.with_receiver, hh], hev, fun _ hne => absurd rfl hne⟩

/-! ## Membership in the calls of each block -/

theorem mem_calls_thread_events (cfg : Config) (c : UX_SLAVE_CLASS_COMMAND)
    (k : UX_SLAVE_CLASS) (e : Event) :
    e ∈ calls (thread_events cfg c k) ↔
      cfg.UX_DEVICE_STANDALONE = false ∧
        (e = Event.thread_delete c.ux_slave_class_command_class_ptr ∨
         e = Event.memory_free Freed.thread_stack k.ux_slave_class_thread_stack ∨
         e = Event.event_flags_delete k.ux_slave_class_instance) := by
  rw [calls_thread_events]
  cases hsa : cfg.UX_DEVICE_STANDALONE <;> simp

theorem mem_calls_event_buffer_events (cfg : Config) (k : UX_SLAVE_CLASS)
    (h : UX_SLAVE_CLASS_HID) (ev : UX_DEVICE_CLASS_HID_EVENT) (e : Event) :
    e ∈ calls (event_buffer_events cfg k h ev) ↔
      (cfg.UX_DEVICE_ENDPOINT_BUFFER_OWNER = 1 ∧ cfg.UX_DEVICE_CLASS_HID_ZERO_COPY = true) ∧
        e = Event.memory_free Freed.event_buffer ev.ux_device_class_hid_event_buffer := by
  rw [calls_event_buffer_events]
  split <;> simp_all

theorem mem_mutex_events (cfg : Config) (k : UX_SLAVE_CLASS) (e : Event) :
    e ∈ mutex_events cfg k ↔
      cfg.UX_DEVICE_CLASS_HID_INTERRUPT_OUT_SUPPORT = true ∧
        cfg.UX_DEVICE_STANDALONE = false ∧
        e = Event.mutex_delete k.ux_slave_class_instance := by
  unfold mutex_events
  cases hsa : cfg.UX_DEVICE_STANDALONE <;>
    cases hio : cfg.UX_DEVICE_CLASS_HID_INTERRUPT_OUT_SUPPORT <;> simp

theorem mem_calls_receiver_events (cfg : Config) (k : UX_SLAVE_CLASS)
    (h : UX_SLAVE_CLASS_HID) (r : UX_DEVICE_CLASS_HID_RECEIVER) (e : Event) :
    e ∈ calls (receiver_events cfg k h r) ↔
      (cfg.UX_DEVICE_CLASS_HID_INTERRUPT_OUT_SUPPORT = true ∧
        h.ux_device_class_hid_receiver ≠ UX_NULL) ∧
        e = Event.receiver_uninitialize
          ( UX_DEVICE_CLASS_HID_RECEIVER.ux_device_class_hid_receiver_uninitialize r)
          h.ux_device_class_hid_receiver := by
  rw [calls_receiver_events]
  split <;> simp_all

theorem mem_calls_endpoint_buffer_events (cfg : Config) (k : UX_SLAVE_CLASS)
    (h : UX_SLAVE_CLASS_HID) (e : Event) :
    e ∈ calls (endpoint_buffer_events cfg k h) ↔
      cfg.UX_DEVICE_CLASS_HID_OWN_ENDPOINT_BUFFER = true ∧
        e = Event.memory_free Freed.endpoint_buffer h.ux_device_class_hid_endpoint_buffer := by
  rw [calls_endpoint_buffer_events]
  split <;> simp_all

/-! ## The memory after the frees, and the second call -/

/-- Claim C1: under every build configuration the function returns `UX_SUCCESS`.
Whatever the memory, a run that returns a status returns `UX_SUCCESS`, never
another one; and whenever the pointers the function follows resolve (instance
reference null or not, receiver attached or not), the run does return. -/
theorem uninitialize_returns_success (cfg : Config) (mem : Memory) (command : Ptr) :
    (∀ status m', run cfg mem command = some (status, m') → status = cfg.UX_SUCCESS) ∧
    (∀ c k h ev r, Resolves cfg mem command c k h ev r →
      ∃ m', run cfg mem command = some (cfg.UX_SUCCESS, m')) :=
  ⟨fun status m' hrun => status_of_run cfg mem command status m' hrun,
   fun c k h ev r hres => ⟨_, run_eq cfg mem command c k h ev r hres⟩⟩

/-- Witness of C1 on the fully constructed instance: the pointers resolve and the
run returns the success status. -/
theorem uninitialize_returns_success_witness :
    Resolves scenario_config full_memory 10 ⟨20⟩ ⟨30, UX_THREAD.running, 40⟩
      ⟨⟨true⟩, 50, ⟨true⟩, 60, 70⟩ ⟨100⟩ ⟨900⟩ ∧
    ∃ m', run scenario_config full_memory 10 = some (scenario_config.UX_SUCCESS, m') :=
  ⟨by decide,
   (uninitialize_returns_success scenario_config full_memory 10).2 ⟨20⟩
     ⟨30, UX_THREAD.running, 40⟩ ⟨⟨true⟩, 50, ⟨true⟩, 60, 70⟩ ⟨100⟩ ⟨900⟩ (by decide)⟩

/-- Claim C2: when the instance reference of the class container is null, the
function does nothing under every build configuration.  It reads the class
pointer of the command and the instance reference of the container and nothing
else: no call is made (no thread delete, no event flags delete, no mutex delete,
no receiver call, no memory free), no field of the instance is touched, the
memory is as before, and `UX_SUCCESS` is returned. -/
theorem null_instance_is_noop (cfg : Config) (mem : Memory) (command : Ptr)
    (c : UX_SLAVE_CLASS_COMMAND) (k : UX_SLAVE_CLASS)
    (hc : mem.commands command = some c)
    (hk : mem.classes c.ux_slave_class_command_class_ptr = some k)
    (hnull : k.ux_slave_class_instance = UX_NULL) :
    ∃ m', run cfg mem command = some (cfg.UX_SUCCESS, m') ∧
      m'.trace = [Event.read command Field.ux_slave_class_command_class_ptr,
        Event.read c.ux_slave_class_command_class_ptr Field.ux_slave_class_instance] ∧
      calls m'.trace = [] ∧
      (∀ e ∈ m'.trace, e.usesInstance = false) ∧
      m'.mem = mem := by
  have hres : Resolves cfg mem command c k ⟨⟨false⟩, 0, ⟨false⟩, 0, 0⟩ ⟨0⟩ ⟨0⟩ :=
    ⟨hc, hk, fun hn => absurd hnull hn⟩
  refine ⟨_, run_eq cfg mem command c k _ _ _ hres, ?_, ?_, ?_, rfl⟩
  · simp [teardown_events, entry_events, hnull]
  · simp [teardown_events, entry_events, hnull, calls, Event.isCall]
  · simp [teardown_events, entry_events, hnull, Event.usesInstance, Field.ofInstance]

/-- Witness of C2 on a container whose instance reference is null, in the
threaded build with interrupt OUT support and zero copy. -/
theorem null_instance_is_noop_witness :
    ∃ m', run scenario_config absent_memory 10 = some (scenario_config.UX_SUCCESS, m') ∧
      m'.trace = [Event.read 10 Field.ux_slave_class_command_class_ptr,
        Event.read 20 Field.ux_slave_class_instance] ∧
      calls m'.trace = [] ∧
      (∀ e ∈ m'.trace, e.usesInstance = false) ∧
      m'.mem = absent_memory :=
  null_instance_is_noop scenario_config absent_memory 10 ⟨20⟩
    ⟨UX_NULL, UX_THREAD.not_created, UX_NULL⟩ rfl rfl rfl

/-- Counterexample to C4: in the threaded build, on an instance whose thread and
event flags group were never created (only the event array exists), the function
does issue the thread delete and the event flags delete, and a free of the null
thread stack, before it frees the event array and the instance. -/
theorem partial_instance_thread_delete_issued :
    partial_memory.classes 20 = some ⟨30, UX_THREAD.not_created, UX_NULL⟩ ∧
    partial_memory.hids 30 = some ⟨⟨false⟩, 50, ⟨false⟩, UX_NULL, UX_NULL⟩ ∧
    ∃ m', run threaded_config partial_memory 10 = some (0, m') ∧
      calls m'.trace =
        [Event.thread_delete 20, Event.memory_free Freed.thread_stack 0,
         Event.event_flags_delete 30, Event.memory_free Freed.event_array 50,
         Event.memory_free Freed.hid 30] :=
  ⟨rfl, rfl, _, rfl, by decide⟩

/-- Claim C4, amended: for every non-null instance, whatever the state of its
thread, of its event flags group and of its mutex (created or not) and whatever
the pointers it holds (null or not), the calls of the function are exactly these,
in this order: in the threaded build the thread delete, the free of the thread
stack and the event flags delete; the free of the event buffer of slot 0 when
`UX_DEVICE_ENDPOINT_BUFFER_OWNER` is 1 and zero copy is set; the free of the
event array; with interrupt OUT support the mutex delete (threaded build) and,
only when the receiver reference is not null, the receiver call; the free of
the endpoint buffer when the class owns it; the free of the instance.  So every
step is issued on the build configuration alone once the instance is not null;
the receiver call is the only one guarded by the presence of its own resource.
In the threaded build the slab and the instance are freed after the thread
delete, the stack free and the event flags delete. -/
theorem threaded_teardown_ignores_creation_state (cfg : Config) (mem : Memory)
    (command : Ptr) (c : UX_SLAVE_CLASS_COMMAND) (k : UX_SLAVE_CLASS)
    (h : UX_SLAVE_CLASS_HID) (ev : UX_DEVICE_CLASS_HID_EVENT)
    (r : UX_DEVICE_CLASS_HID_RECEIVER)
    (hres : Resolves cfg mem command c k h ev r)
    (hn : k.ux_slave_class_instance ≠ UX_NULL) :
    ∃ m', run cfg mem command = some (cfg.UX_SUCCESS, m') ∧
      calls m'.trace =
        (if cfg.UX_DEVICE_STANDALONE = true then [] else
          [Event.thread_delete c.ux_slave_class_command_class_ptr,
           Event.memory_free Freed.thread_stack k.ux_slave_class_thread_stack,
           Event.event_flags_delete k.ux_slave_class_instance]) ++
        (if cfg.UX_DEVICE_ENDPOINT_BUFFER_OWNER = 1 ∧
            cfg.UX_DEVICE_CLASS_HID_ZERO_COPY = true then
          [Event.memory_free Freed.event_buffer ev.ux_device_class_hid_event_buffer]
         else []) ++
        [Event.memory_free Freed.event_array h.ux_device_class_hid_event_array] ++
        (if cfg.UX_DEVICE_CLASS_HID_INTERRUPT_OUT_SUPPORT = true then
          (if cfg.UX_DEVICE_STANDALONE = true then [] else
            [Event.mutex_delete k.ux_slave_class_instance]) ++
          (if h.ux_device_class_hid_receiver = UX_NULL then [] else
            [ Event.receiver_uninitialize
              ( UX_DEVICE_CLASS_HID_RECEIVER.ux_device_class_hid_receiver_uninitialize r)
              h.ux_device_class_hid_receiver])
         else []) ++
        (if cfg.UX_DEVICE_CLASS_HID_OWN_ENDPOINT_BUFFER = true then
          [Event.memory_free Freed.endpoint_buffer h.ux_device_class_hid_endpoint_buffer]
         else []) ++
        [Event.memory_free Freed.hid k.ux_slave_class_instance] ∧
      (cfg.UX_DEVICE_STANDALONE = false →
        ∃ rest, calls m'.trace =
          Event.thread_delete c.ux_slave_class_command_class_ptr ::
          Event.memory_free Freed.thread_stack k.ux_slave_class_thread_stack ::
          Event.event_flags_delete k.ux_slave_class_instance :: rest ∧
        Event.memory_free Freed.event_array h.ux_device_class_hid_event_array ∈ rest ∧
        Event.memory_free Freed.hid k.ux_slave_class_instance ∈ rest) := by
  refine ⟨_, run_eq cfg mem command c k h ev r hres, ?_, fun hthreaded => ?_⟩
  · rw [calls_teardown_events cfg command c k h ev r hn, calls_thread_events,
      calls_event_buffer_events, calls_receiver_events, calls_endpoint_buffer_events]
    by_cases hrn : h.ux_device_class_hid_receiver = UX_NULL <;>
      cases hio : cfg.UX_DEVICE_CLASS_HID_INTERRUPT_OUT_SUPPORT <;>
      simp [mutex_events, hrn, hio]
  · refine ⟨calls (event_buffer_events cfg k h ev) ++
      [Event.memory_free Freed.event_array h.ux_device_class_hid_event_array] ++
      mutex_events cfg k ++ calls (receiver_events cfg k h r) ++
      calls (endpoint_buffer_events cfg k h) ++
      [Event.memory_free Freed.hid k.ux_slave_class_instance], ?_, by simp, by simp⟩
    rw [calls_teardown_events cfg command c k h ev r hn, calls_thread_events]
    simp [hthreaded]

/-- Witness of the amended C4 on the instance whose thread, event flags group and
mutex were never created and whose receiver reference is null, in the threaded
build with every option on. -/
theorem threaded_teardown_ignores_creation_state_witness :
    ∃ m', run every_option_config partial_memory 10 =
        some (every_option_config.UX_SUCCESS, m') ∧
      calls m'.trace =
        (if every_option_config.UX_DEVICE_STANDALONE = true then [] else
          [Event.thread_delete 20, Event.memory_free Freed.thread_stack UX_NULL,
           Event.event_flags_delete 30]) ++
        (if every_option_config.UX_DEVICE_ENDPOINT_BUFFER_OWNER = 1 ∧
            every_option_config.UX_DEVICE_CLASS_HID_ZERO_COPY = true then
          [Event.memory_free Freed.event_buffer 0]
         else []) ++
        [Event.memory_free Freed.event_array 50] ++
        (if every_option_config.UX_DEVICE_CLASS_HID_INTERRUPT_OUT_SUPPORT = true then
          (if every_option_config.UX_DEVICE_STANDALONE = true then [] else
            [Event.mutex_delete 30]) ++
          (if UX_NULL = UX_NULL then [] else [ Event.receiver_uninitialize 0 UX_NULL])
         else []) ++
        (if every_option_config.UX_DEVICE_CLASS_HID_OWN_ENDPOINT_BUFFER = true then
          [Event.memory_free Freed.endpoint_buffer UX_NULL]
         else []) ++
        [Event.memory_free Freed.hid 30] ∧
      (every_option_config.UX_DEVICE_STANDALONE = false →
        ∃ rest, calls m'.trace =
          Event.thread_delete 20 :: Event.memory_free Freed.thread_stack UX_NULL ::
          Event.event_flags_delete 30 :: rest ∧
        Event.memory_free Freed.event_array 50 ∈ rest ∧
        Event.memory_free Freed.hid 30 ∈ rest) :=
  threaded_teardown_ignores_creation_state every_option_config partial_memory 10 ⟨20⟩
    ⟨30, UX_THREAD.not_created, UX_NULL⟩ ⟨⟨false⟩, 50, ⟨false⟩, UX_NULL, UX_NULL⟩ ⟨0⟩ ⟨0⟩
    (by decide) (by decide)

/-- Claim C5: the teardown stays inside the configured features.  For every
build configuration and every non-null instance the calls of the function
contain (a) in the standalone build no thread delete, no free of the thread
stack, no event flags delete and no mutex delete; (b) without zero copy no free
of an event buffer; (c) without interrupt OUT support no mutex delete and no
receiver call; (d) without a class-owned endpoint buffer no free of the endpoint
buffer. -/
theorem teardown_is_feature_scoped (cfg : Config) (mem : Memory) (command : Ptr)
    (c : UX_SLAVE_CLASS_COMMAND) (k : UX_SLAVE_CLASS) (h : UX_SLAVE_CLASS_HID)
    (ev : UX_DEVICE_CLASS_HID_EVENT) (r : UX_DEVICE_CLASS_HID_RECEIVER)
    (hres : Resolves cfg mem command c k h ev r)
    (hn : k.ux_slave_class_instance ≠ UX_NULL) :
    ∃ m', run cfg mem command = some (cfg.UX_SUCCESS, m') ∧
      (cfg.UX_DEVICE_STANDALONE = true → ∀ e ∈ calls m'.trace,
        e.isThreadDelete = false ∧ e.isFree Freed.thread_stack = false ∧
        e.isEventFlagsDelete = false ∧ e.isMutexDelete = false) ∧
      (cfg.UX_DEVICE_CLASS_HID_ZERO_COPY = false → ∀ e ∈ calls m'.trace,
        e.isFree Freed.event_buffer = false) ∧
      (cfg.UX_DEVICE_CLASS_HID_INTERRUPT_OUT_SUPPORT = false → ∀ e ∈ calls m'.trace,
        e.isMutexDelete = false ∧ e.isReceiverCall = false) ∧
      (cfg.UX_DEVICE_CLASS_HID_OWN_ENDPOINT_BUFFER = false → ∀ e ∈ calls m'.trace,
        e.isFree Freed.endpoint_buffer = false) := by
  refine ⟨_, run_eq cfg mem command c k h ev r hres, ?_⟩
  clear hres
  simp only [calls_teardown_events cfg command c k h ev r hn]
  refine ⟨fun hsa e he => ?_, fun hzc e he => ?_, fun hio e he => ?_, fun hoeb e he => ?_⟩ <;>
  · simp only [List.mem_append, List.mem_singleton, mem_calls_thread_events,
      mem_calls_event_buffer_events, mem_mutex_events, mem_calls_receiver_events,
      mem_calls_endpoint_buffer_events] at he
    rcases he with (((((⟨h1, rfl | rfl | rfl⟩ | ⟨h1, rfl⟩) | rfl) | ⟨h1, h2, rfl⟩) |
      ⟨h1, rfl⟩) | ⟨h1, rfl⟩) | rfl <;>
    simp_all [Event.isThreadDelete, Event.isFree, Event.isEventFlagsDelete,
      Event.isMutexDelete, Event.isReceiverCall]

/-- Witness of C5 on the fully constructed instance in the standalone build. -/
theorem teardown_is_feature_scoped_witness :
    ∃ m', run standalone_config full_memory 10 = some (standalone_config.UX_SUCCESS, m') ∧
      (standalone_config.UX_DEVICE_STANDALONE = true → ∀ e ∈ calls m'.trace,
        e.isThreadDelete = false ∧ e.isFree Freed.thread_stack = false ∧
        e.isEventFlagsDelete = false ∧ e.isMutexDelete = false) ∧
      (standalone_config.UX_DEVICE_CLASS_HID_ZERO_COPY = false → ∀ e ∈ calls m'.trace,
        e.isFree Freed.event_buffer = false) ∧
      (standalone_config.UX_DEVICE_CLASS_HID_INTERRUPT_OUT_SUPPORT = false →
        ∀ e ∈ calls m'.trace, e.isMutexDelete = false ∧ e.isReceiverCall = false) ∧
      (standalone_config.UX_DEVICE_CLASS_HID_OWN_ENDPOINT_BUFFER = false →
        ∀ e ∈ calls m'.trace, e.isFree Freed.endpoint_buffer = false) :=
  teardown_is_feature_scoped standalone_config full_memory 10 ⟨20⟩
    ⟨30, UX_THREAD.running, 40⟩ ⟨⟨true⟩, 50, ⟨true⟩, 60, 70⟩ ⟨100⟩ ⟨900⟩
    (by decide) (by decide)

/-- Claim C6: the shutdown order of the threaded build.  For every configuration
without standalone mode and every non-null instance whose pointers resolve, the
calls of the function start with the thread delete, the free of the thread stack
and the event flags delete, in that order; none of the three occurs again, and
the free of the event array, of an event buffer and of the instance all come
after them. -/
theorem threaded_shutdown_order (cfg : Config) (mem : Memory) (command : Ptr)
    (c : UX_SLAVE_CLASS_COMMAND) (k : UX_SLAVE_CLASS) (h : UX_SLAVE_CLASS_HID)
    (ev : UX_DEVICE_CLASS_HID_EVENT) (r : UX_DEVICE_CLASS_HID_RECEIVER)
    (hres : Resolves cfg mem command c k h ev r)
    (hn : k.ux_slave_class_instance ≠ UX_NULL)
    (hthreaded : cfg.UX_DEVICE_STANDALONE = false) :
    ∃ m' rest, run cfg mem command = some (cfg.UX_SUCCESS, m') ∧
      calls m'.trace =
        [Event.thread_delete c.ux_slave_class_command_class_ptr,
         Event.memory_free Freed.thread_stack k.ux_slave_class_thread_stack,
         Event.event_flags_delete k.ux_slave_class_instance] ++ rest ∧
      (∀ e ∈ rest, e.isThreadDelete = false ∧ e.isFree Freed.thread_stack = false ∧
        e.isEventFlagsDelete = false) ∧
      Event.memory_free Freed.event_array h.ux_device_class_hid_event_array ∈ rest ∧
      Event.memory_free Freed.hid k.ux_slave_class_instance ∈ rest ∧
      (∀ e ∈ calls m'.trace, e.isFree Freed.event_array = true ∨
        e.isFree Freed.event_buffer = true ∨ e.isFree Freed.hid = true → e ∈ rest) := by
  refine ⟨_, calls (event_buffer_events cfg k h ev) ++
    [Event.memory_free Freed.event_array h.ux_device_class_hid_event_array] ++
    mutex_events cfg k ++ calls (receiver_events cfg k h r) ++
    calls (endpoint_buffer_events cfg k h) ++
    [Event.memory_free Freed.hid k.ux_slave_class_instance],
    run_eq cfg mem command c k h ev r hres, ?_⟩
  clear hres
  refine ⟨?_, fun e he => ?_, by simp, by simp, fun e he hfree => ?_⟩
  · rw [calls_teardown_events cfg command c k h ev r hn, calls_thread_events]
    simp [hthreaded]
  · simp only [List.mem_append, List.mem_singleton,
      mem_calls_event_buffer_events, mem_mutex_events, mem_calls_receiver_events,
      mem_calls_endpoint_buffer_events] at he
    rcases he with ((((⟨h1, rfl⟩ | rfl) | ⟨h1, h2, rfl⟩) | ⟨h1, rfl⟩) | ⟨h1, rfl⟩) | rfl <;>
    simp [Event.isThreadDelete, Event.isFree, Event.isEventFlagsDelete]
  · simp only [calls_teardown_events cfg command c k h ev r hn, List.mem_append,
      List.mem_singleton] at he ⊢
    rcases he with (((((he | he) | he) | he) | he) | he) | he
    · rw [mem_calls_thread_events] at he
      rcases he with ⟨-, rfl | rfl | rfl⟩ <;> simp [Event.isFree] at hfree
    · exact Or.inl (Or.inl (Or.inl (Or.inl (Or.inl he))))
    · exact Or.inl (Or.inl (Or.inl (Or.inl (Or.inr he))))
    · exact Or.inl (Or.inl (Or.inl (Or.inr he)))
    · exact Or.inl (Or.inl (Or.inr he))
    · exact Or.inl (Or.inr he)
    · exact Or.inr he

/-- Witness of C6 on the fully constructed instance in the threaded build with
interrupt OUT support and zero copy. -/
theorem threaded_shutdown_order_witness :
    ∃ m' rest, run scenario_config full_memory 10 = some (scenario_config.UX_SUCCESS, m') ∧
      calls m'.trace =
        [Event.thread_delete 20, Event.memory_free Freed.thread_stack 40,
         Event.event_flags_delete 30] ++ rest ∧
      (∀ e ∈ rest, e.isThreadDelete = false ∧ e.isFree Freed.thread_stack = false ∧
        e.isEventFlagsDelete = false) ∧
      Event.memory_free Freed.event_array 50 ∈ rest ∧
      Event.memory_free Freed.hid 30 ∈ rest ∧
      (∀ e ∈ calls m'.trace, e.isFree Freed.event_array = true ∨
        e.isFree Freed.event_buffer = true ∨ e.isFree Freed.hid = true → e ∈ rest) :=
  threaded_shutdown_order scenario_config full_memory 10 ⟨20⟩
    ⟨30, UX_THREAD.running, 40⟩ ⟨⟨true⟩, 50, ⟨true⟩, 60, 70⟩ ⟨100⟩ ⟨900⟩
    (by decide) (by decide) rfl

/-- Counterexample to C7: the event array of the fully constructed instance has
four slots, yet with zero copy and `UX_DEVICE_ENDPOINT_BUFFER_OWNER == 1` the
function frees one event buffer only, the one of slot 0 at 100; and with zero
copy and `UX_DEVICE_ENDPOINT_BUFFER_OWNER == 0` it frees no event buffer. -/
theorem zero_copy_frees_one_event_buffer :
    (full_memory.event_arrays 50).map List.length = some 4 ∧
    (∃ m', run scenario_config full_memory 10 = some (0, m') ∧
      (calls m'.trace).filter (Event.isFree Freed.event_buffer) =
        [Event.memory_free Freed.event_buffer 100]) ∧
    (∃ m', run zero_copy_borrowed_config full_memory 10 = some (0, m') ∧
      (calls m'.trace).filter (Event.isFree Freed.event_buffer) = []) :=
  ⟨rfl, ⟨_, rfl, by decide⟩, ⟨_, rfl, by decide⟩⟩

/-- Claim C7, amended: with zero copy set, for every non-null instance whose
pointers resolve, the function frees one event buffer when
`UX_DEVICE_ENDPOINT_BUFFER_OWNER` is 1, namely the buffer pointer stored in slot
0 of the event array, whatever the number of slots, and none otherwise; the free
of the event array follows and is issued exactly once. -/
theorem zero_copy_event_buffer_then_array (cfg : Config) (mem : Memory) (command : Ptr)
    (c : UX_SLAVE_CLASS_COMMAND) (k : UX_SLAVE_CLASS) (h : UX_SLAVE_CLASS_HID)
    (ev : UX_DEVICE_CLASS_HID_EVENT) (r : UX_DEVICE_CLASS_HID_RECEIVER)
    (hres : Resolves cfg mem command c k h ev r)
    (hn : k.ux_slave_class_instance ≠ UX_NULL)
    (hzc : cfg.UX_DEVICE_CLASS_HID_ZERO_COPY = true) :
    ∃ m' pre post, run cfg mem command = some (cfg.UX_SUCCESS, m') ∧
      calls m'.trace = pre ++
        (if cfg.UX_DEVICE_ENDPOINT_BUFFER_OWNER = 1 then
          [Event.memory_free Freed.event_buffer ev.ux_device_class_hid_event_buffer]
         else []) ++
        [Event.memory_free Freed.event_array h.ux_device_class_hid_event_array] ++ post ∧
      (∀ e ∈ pre ++ post,
        e.isFree Freed.event_buffer = false ∧ e.isFree Freed.event_array = false) ∧
      (cfg.UX_DEVICE_ENDPOINT_BUFFER_OWNER = 1 →
        (mem.event_arrays h.ux_device_class_hid_event_array).bind List.head? = some ev) := by
  refine ⟨_, calls (thread_events cfg c k),
    mutex_events cfg k ++ calls (receiver_events cfg k h r) ++
      calls (endpoint_buffer_events cfg k h) ++
      [Event.memory_free Freed.hid k.ux_slave_class_instance],
    run_eq cfg mem command c k h ev r hres, ?_, fun e he => ?_,
    fun hown => (hres.2.2 hn).2.1 hown hzc⟩
  · rw [calls_teardown_events cfg command c k h ev r hn, calls_event_buffer_events]
    simp [hzc]
  · simp only [List.mem_append, List.mem_singleton, mem_calls_thread_events,
      mem_mutex_events, mem_calls_receiver_events, mem_calls_endpoint_buffer_events] at he
    rcases he with ⟨h1, rfl | rfl | rfl⟩ | (((⟨h1, h2, rfl⟩ | ⟨h1, rfl⟩) | ⟨h1, rfl⟩) | rfl) <;>
    simp [Event.isFree]

/-- Witness of the amended C7 on the fully constructed instance with zero copy
and `UX_DEVICE_ENDPOINT_BUFFER_OWNER == 1`. -/
theorem zero_copy_event_buffer_then_array_witness :
    ∃ m' pre post, run scenario_config full_memory 10 =
        some (scenario_config.UX_SUCCESS, m') ∧
      calls m'.trace = pre ++
        (if scenario_config.UX_DEVICE_ENDPOINT_BUFFER_OWNER = 1 then
          [Event.memory_free Freed.event_buffer 100]
         else []) ++
        [Event.memory_free Freed.event_array 50] ++ post ∧
      (∀ e ∈ pre ++ post,
        e.isFree Freed.event_buffer = false ∧ e.isFree Freed.event_array = false) ∧
      (scenario_config.UX_DEVICE_ENDPOINT_BUFFER_OWNER = 1 →
        (full_memory.event_arrays 50).bind List.head? = some ⟨100⟩) :=
  zero_copy_event_buffer_then_array scenario_config full_memory 10 ⟨20⟩
    ⟨30, UX_THREAD.running, 40⟩ ⟨⟨true⟩, 50, ⟨true⟩, 60, 70⟩ ⟨100⟩ ⟨900⟩
    (by decide) (by decide) rfl

/-- Counterexample to C8: in the scenario (threaded build, interrupt OUT support,
zero copy, four slots, receiver attached) the calls are the eight below.  One
event buffer is freed, not four, and the free of the thread stack and the event
flags delete come before the free of the event array, not after it. -/
theorem scenario_calls_differ :
    (full_memory.event_arrays 50).map List.length = some 4 ∧
    ∃ m', run scenario_config full_memory 10 = some (0, m') ∧
      calls m'.trace =
        [Event.thread_delete 20, Event.memory_free Freed.thread_stack 40,
         Event.event_flags_delete 30, Event.memory_free Freed.event_buffer 100,
         Event.memory_free Freed.event_array 50, Event.mutex_delete 30,
         Event.receiver_uninitialize 900 60, Event.memory_free Freed.hid 30] ∧
      (calls m'.trace).countP (Event.isFree Freed.event_buffer) = 1 ∧
      (calls m'.trace).indexOf (Event.memory_free Freed.thread_stack 40) <
        (calls m'.trace).indexOf (Event.memory_free Freed.event_array 50) ∧
      (calls m'.trace).indexOf (Event.event_flags_delete 30) <
        (calls m'.trace).indexOf (Event.memory_free Freed.event_array 50) :=
  ⟨rfl, _, rfl, by decide, by decide, by decide, by decide⟩

/-- Claim C8, amended: in the threaded build with interrupt OUT support and zero
copy, on a non-null instance with a receiver attached and an event array of four
slots, the calls of the function are, in this order: the thread delete, the free
of the thread stack, the event flags delete, the free of the event buffer of
slot 0 (only when `UX_DEVICE_ENDPOINT_BUFFER_OWNER` is 1), the free of the event
array, the mutex delete, the receiver's uninitialize, the free of the endpoint
buffer (only when the class owns one), the free of the instance. -/
theorem scenario_teardown_sequence (cfg : Config) (mem : Memory) (command : Ptr)
    (c : UX_SLAVE_CLASS_COMMAND) (k : UX_SLAVE_CLASS) (h : UX_SLAVE_CLASS_HID)
    (ev : UX_DEVICE_CLASS_HID_EVENT) (r : UX_DEVICE_CLASS_HID_RECEIVER)
    (slots : List UX_DEVICE_CLASS_HID_EVENT)
    (hres : Resolves cfg mem command c k h ev r)
    (hn : k.ux_slave_class_instance ≠ UX_NULL)
    (hthreaded : cfg.UX_DEVICE_STANDALONE = false)
    (hio : cfg.UX_DEVICE_CLASS_HID_INTERRUPT_OUT_SUPPORT = true)
    (hzc : cfg.UX_DEVICE_CLASS_HID_ZERO_COPY = true)
    (hrecv : h.ux_device_class_hid_receiver ≠ UX_NULL)
    (hslots : mem.event_arrays h.ux_device_class_hid_event_array = some slots)
    (hcap : slots.length = 4) :
    ∃ m', run cfg mem command = some (cfg.UX_SUCCESS, m') ∧
      calls m'.trace =
        [Event.thread_delete c.ux_slave_class_command_class_ptr,
         Event.memory_free Freed.thread_stack k.ux_slave_class_thread_stack,
         Event.event_flags_delete k.ux_slave_class_instance] ++
        (if cfg.UX_DEVICE_ENDPOINT_BUFFER_OWNER = 1 then
          [Event.memory_free Freed.event_buffer ev.ux_device_class_hid_event_buffer]
         else []) ++
        [Event.memory_free Freed.event_array h.ux_device_class_hid_event_array,
         Event.mutex_delete k.ux_slave_class_instance,
         Event.receiver_uninitialize
          ( UX_DEVICE_CLASS_HID_RECEIVER.ux_device_class_hid_receiver_uninitialize r)
           h.ux_device_class_hid_receiver] ++
        (if cfg.UX_DEVICE_CLASS_HID_OWN_ENDPOINT_BUFFER = true then
          [Event.memory_free Freed.endpoint_buffer h.ux_device_class_hid_endpoint_buffer]
         else []) ++
        [Event.memory_free Freed.hid k.ux_slave_class_instance] ∧
      (cfg.UX_DEVICE_ENDPOINT_BUFFER_OWNER = 1 → slots.head? = some ev) ∧
      slots.length = 4 := by
  refine ⟨_, run_eq cfg mem command c k h ev r hres, ?_, fun hown => ?_, hcap⟩
  · rw [calls_teardown_events cfg command c k h ev r hn, calls_thread_events,
      calls_event_buffer_events, calls_receiver_events, calls_endpoint_buffer_events]
    simp [hthreaded, hio, hzc, hrecv, mutex_events]
  · have hev := (hres.2.2 hn).2.1 hown hzc
    rw [hslots] at hev
    simpa using hev

/-- Witness of the amended C8 on the scenario itself. -/
theorem scenario_teardown_sequence_witness :
    ∃ m', run scenario_config full_memory 10 = some (scenario_config.UX_SUCCESS, m') ∧
      calls m'.trace =
        [Event.thread_delete 20, Event.memory_free Freed.thread_stack 40,
         Event.event_flags_delete 30] ++
        (if scenario_config.UX_DEVICE_ENDPOINT_BUFFER_OWNER = 1 then
          [Event.memory_free Freed.event_buffer 100]
         else []) ++
        [Event.memory_free Freed.event_array 50, Event.mutex_delete 30,
         Event.receiver_uninitialize 900 60] ++
        (if scenario_config.UX_DEVICE_CLASS_HID_OWN_ENDPOINT_BUFFER = true then
          [Event.memory_free Freed.endpoint_buffer 70]
         else []) ++
        [Event.memory_free Freed.hid 30] ∧
      (scenario_config.UX_DEVICE_ENDPOINT_BUFFER_OWNER = 1 →
        [(⟨100⟩ : UX_DEVICE_CLASS_HID_EVENT), ⟨108⟩, ⟨116⟩, ⟨124⟩].head? = some ⟨100⟩) ∧
      [(⟨100⟩ : UX_DEVICE_CLASS_HID_EVENT), ⟨108⟩, ⟨116⟩, ⟨124⟩].length = 4 :=
  scenario_teardown_sequence scenario_config full_memory 10 ⟨20⟩
    ⟨30, UX_THREAD.running, 40⟩ ⟨⟨true⟩, 50, ⟨true⟩, 60, 70⟩ ⟨100⟩ ⟨900⟩
    [⟨100⟩, ⟨108⟩, ⟨116⟩, ⟨124⟩]
    (by decide) (by decide) rfl rfl rfl (by decide) rfl rfl

/-- Claim C9: the teardown of the receive path.  With interrupt OUT support, for
every non-null instance whose pointers resolve, the calls of the function are:
some calls `pre`, the free of the event array, the mutex delete (threaded build
only), the call of the receiver's uninitialize routine with that same receiver
as its argument (exactly when the receiver reference is not null), some calls
`post`, the free of the instance; `pre` and `post` hold no mutex delete, no
receiver call, no free of the event array and no free of the instance.  The
routine called is the one stored in the receiver.  On the memory that differs
only in a null receiver reference the calls are the same without the receiver
call. -/
theorem receive_path_teardown (cfg : Config) (mem : Memory) (command : Ptr)
    (c : UX_SLAVE_CLASS_COMMAND) (k : UX_SLAVE_CLASS) (h : UX_SLAVE_CLASS_HID)
    (ev : UX_DEVICE_CLASS_HID_EVENT) (r : UX_DEVICE_CLASS_HID_RECEIVER)
    (hres : Resolves cfg mem command c k h ev r)
    (hn : k.ux_slave_class_instance ≠ UX_NULL)
    (hio : cfg.UX_DEVICE_CLASS_HID_INTERRUPT_OUT_SUPPORT = true) :
    ∃ m' pre post, run cfg mem command = some (cfg.UX_SUCCESS, m') ∧
      calls m'.trace = pre ++
        [Event.memory_free Freed.event_array h.ux_device_class_hid_event_array] ++
        (if cfg.UX_DEVICE_STANDALONE = true then []
         else [Event.mutex_delete k.ux_slave_class_instance]) ++
        (if h.ux_device_class_hid_receiver = UX_NULL then []
         else [ Event.receiver_uninitialize
          ( UX_DEVICE_CLASS_HID_RECEIVER.ux_device_class_hid_receiver_uninitialize r)
                h.ux_device_class_hid_receiver]) ++
        post ++ [Event.memory_free Freed.hid k.ux_slave_class_instance] ∧
      (∀ e ∈ pre ++ post, e.isMutexDelete = false ∧ e.isReceiverCall = false ∧
        e.isFree Freed.event_array = false ∧ e.isFree Freed.hid = false) ∧
      (h.ux_device_class_hid_receiver ≠ UX_NULL →
        mem.receivers h.ux_device_class_hid_receiver = some r) ∧
      ∃ m₀, run cfg (mem.with_receiver k.ux_slave_class_instance UX_NULL) command =
          some (cfg.UX_SUCCESS, m₀) ∧
        calls m₀.trace = (calls m'.trace).filter (fun e => !e.isReceiverCall) := by
  refine ⟨_, calls (thread_events cfg c k) ++ calls (event_buffer_events cfg k h ev),
    calls (endpoint_buffer_events cfg k h),
    run_eq cfg mem command c k h ev r hres, ?_, fun e he => ?_,
    fun hrn => (hres.2.2 hn).2.2 hio hrn,
    _, run_eq cfg _ command c k _ ev r
      (resolves_with_receiver_null cfg mem command c k h ev r hres), ?_⟩
  · rw [calls_teardown_events cfg command c k h ev r hn, calls_receiver_events]
    by_cases hrn : h.ux_device_class_hid_receiver = UX_NULL <;>
      simp [hio, hrn, mutex_events]
  · simp only [List.mem_append, mem_calls_thread_events, mem_calls_event_buffer_events,
      mem_calls_endpoint_buffer_events] at he
    rcases he with (⟨h1, rfl | rfl | rfl⟩ | ⟨h1, rfl⟩) | ⟨h1, rfl⟩ <;>
    simp [Event.isMutexDelete, Event.isReceiverCall, Event.isFree]
  · have hA : (calls (thread_events cfg c k)).filter (fun e => !e.isReceiverCall) =
        calls (thread_events cfg c k) := by
      refine List.filter_eq_self.2 (fun e he => ?_)
      rw [mem_calls_thread_events] at he
      rcases he with ⟨-, rfl | rfl | rfl⟩ <;> simp [Event.isReceiverCall]
    have hB : (calls (event_buffer_events cfg k h ev)).filter (fun e => !e.isReceiverCall) =
        calls (event_buffer_events cfg k h ev) := by
      refine List.filter_eq_self.2 (fun e he => ?_)
      rw [mem_calls_event_buffer_events] at he
      rcases he with ⟨-, rfl⟩
      simp [Event.isReceiverCall]
    have hM : (mutex_events cfg k).filter (fun e => !e.isReceiverCall) =
        mutex_events cfg k := by
      refine List.filter_eq_self.2 (fun e he => ?_)
      rw [mem_mutex_events] at he
      rcases he with ⟨-, -, rfl⟩
      simp [Event.isReceiverCall]
    have hR : (calls (receiver_events cfg k h r)).filter (fun e => !e.isReceiverCall) = [] := by
      rw [calls_receiver_events]
      split <;> simp [Event.isReceiverCall]
    have hE : (calls (endpoint_buffer_events cfg k h)).filter (fun e => !e.isReceiverCall) =
        calls (endpoint_buffer_events cfg k h) := by
      refine List.filter_eq_self.2 (fun e he => ?_)
      rw [mem_calls_endpoint_buffer_events] at he
      rcases he with ⟨-, rfl⟩
      simp [Event.isReceiverCall]
    have hnull : calls (receiver_events cfg k
        { h with ux_device_class_hid_receiver := UX_NULL } r) = [] := by
      rw [calls_receiver_events]
      simp
    have hsame : event_buffer_events cfg k
        { h with ux_device_class_hid_receiver := UX_NULL } ev =
        event_buffer_events cfg k h ev := rfl
    have hsame' : endpoint_buffer_events cfg k
        { h with ux_device_class_hid_receiver := UX_NULL } =
        endpoint_buffer_events cfg k h := rfl
    rw [calls_teardown_events cfg command c k _ ev r hn,
      calls_teardown_events cfg command c k h ev r hn, hnull, hsame, hsame']
    simp only [List.filter_append, hA, hB, hM, hR, hE]
    simp [Event.isReceiverCall]

/-- Witness of C9 on the fully constructed instance, receiver attached, in the
threaded build with interrupt OUT support. -/
theorem receive_path_teardown_witness :
    ∃ m' pre post, run scenario_config full_memory 10 =
        some (scenario_config.UX_SUCCESS, m') ∧
      calls m'.trace = pre ++ [Event.memory_free Freed.event_array 50] ++
        (if scenario_config.UX_DEVICE_STANDALONE = true then []
         else [Event.mutex_delete 30]) ++
        (if (60 : Ptr) = UX_NULL then [] else [ Event.receiver_uninitialize 900 60]) ++
        post ++ [Event.memory_free Freed.hid 30] ∧
      (∀ e ∈ pre ++ post, e.isMutexDelete = false ∧ e.isReceiverCall = false ∧
        e.isFree Freed.event_array = false ∧ e.isFree Freed.hid = false) ∧
      ((60 : Ptr) ≠ UX_NULL → full_memory.receivers 60 = some ⟨900⟩) ∧
      ∃ m₀, run scenario_config (full_memory.with_receiver 30 UX_NULL) 10 =
          some (scenario_config.UX_SUCCESS, m₀) ∧
        calls m₀.trace = (calls m'.trace).filter (fun e => !e.isReceiverCall) :=
  receive_path_teardown scenario_config full_memory 10 ⟨20⟩
    ⟨30, UX_THREAD.running, 40⟩ ⟨⟨true⟩, 50, ⟨true⟩, 60, 70⟩ ⟨100⟩ ⟨900⟩
    (by decide) (by decide) rfl

/-- Claim C10: the storage of the instance is reclaimed last.  For every build
configuration and every non-null instance whose pointers resolve, the events of
the function end with the free of the instance, which occurs nowhere else, so
every read of a field of the instance and every call handed the address of its
event flags group or of its read mutex comes before it.  When the class owns
the endpoint buffer, that buffer is read and freed just before, exactly once,
after every event of the receive path. -/
theorem instance_freed_last (cfg : Config) (mem : Memory) (command : Ptr)
    (c : UX_SLAVE_CLASS_COMMAND) (k : UX_SLAVE_CLASS) (h : UX_SLAVE_CLASS_HID)
    (ev : UX_DEVICE_CLASS_HID_EVENT) (r : UX_DEVICE_CLASS_HID_RECEIVER)
    (hres : Resolves cfg mem command c k h ev r)
    (hn : k.ux_slave_class_instance ≠ UX_NULL) :
    ∃ m' pre, run cfg mem command = some (cfg.UX_SUCCESS, m') ∧
      m'.trace = pre ++
        (if cfg.UX_DEVICE_CLASS_HID_OWN_ENDPOINT_BUFFER = true then
          [Event.read k.ux_slave_class_instance Field.ux_device_class_hid_endpoint_buffer,
           Event.memory_free Freed.endpoint_buffer h.ux_device_class_hid_endpoint_buffer]
         else []) ++
        [Event.memory_free Freed.hid k.ux_slave_class_instance] ∧
      (∀ e ∈ pre, e.isFree Freed.hid = false ∧ e.isFree Freed.endpoint_buffer = false) ∧
      (Event.memory_free Freed.hid k.ux_slave_class_instance).usesInstance = false ∧
      (∀ e ∈ m'.trace, e.isMutexDelete = true ∨ e.isReceiverCall = true → e ∈ pre) := by
  have hpre : ∀ e ∈ entry_events command c ++ thread_events cfg c k ++
      event_buffer_events cfg k h ev ++ event_array_events k h ++ mutex_events cfg k ++
      receiver_events cfg k h r,
      e.isFree Freed.hid = false ∧ e.isFree Freed.endpoint_buffer = false := by
    intro e he
    simp only [List.mem_append] at he
    rcases he with ((((he | he) | he) | he) | he) | he
    · revert e
      simp [entry_events, Event.isFree]
    · revert e
      unfold thread_events
      split <;> simp [Event.isFree]
    · revert e
      unfold event_buffer_events
      split <;> simp [Event.isFree]
    · revert e
      simp [event_array_events, Event.isFree]
    · rw [mem_mutex_events] at he
      rcases he with ⟨-, -, rfl⟩
      simp [Event.isFree]
    · revert e
      unfold receiver_events
      split
      · split <;> simp [Event.isFree]
      · simp
  refine ⟨_, entry_events command c ++ thread_events cfg c k ++
      event_buffer_events cfg k h ev ++ event_array_events k h ++ mutex_events cfg k ++
      receiver_events cfg k h r,
    run_eq cfg mem command c k h ev r hres, ?_, hpre, rfl, fun e he hrp => ?_⟩
  · simp [teardown_events, hn, endpoint_buffer_events]
  · simp only [teardown_events, hn, if_false, List.mem_append, List.mem_singleton] at he
    rcases he with he | (((((((he | he) | he) | he) | he) | he) | he))
    · simp [he]
    · simp [he]
    · simp [he]
    · simp [he]
    · simp [he]
    · simp [he]
    · exfalso
      revert hrp
      revert e
      unfold endpoint_buffer_events
      split <;> simp [Event.isMutexDelete, Event.isReceiverCall]
    · subst he
      simp [Event.isMutexDelete, Event.isReceiverCall] at hrp

/-- Witness of C10 on the fully constructed instance in the standalone build,
where the class owns the endpoint buffer. -/
theorem instance_freed_last_witness :
    ∃ m' pre, run standalone_config full_memory 10 =
        some (standalone_config.UX_SUCCESS, m') ∧
      m'.trace = pre ++
        (if standalone_config.UX_DEVICE_CLASS_HID_OWN_ENDPOINT_BUFFER = true then
          [Event.read 30 Field.ux_device_class_hid_endpoint_buffer,
           Event.memory_free Freed.endpoint_buffer 70]
         else []) ++
        [Event.memory_free Freed.hid 30] ∧
      (∀ e ∈ pre, e.isFree Freed.hid = false ∧ e.isFree Freed.endpoint_buffer = false) ∧
      (Event.memory_free Freed.hid 30).usesInstance = false ∧
      (∀ e ∈ m'.trace, e.isMutexDelete = true ∨ e.isReceiverCall = true → e ∈ pre) :=
  instance_freed_last standalone_config full_memory 10 ⟨20⟩
    ⟨30, UX_THREAD.running, 40⟩ ⟨⟨true⟩, 50, ⟨true⟩, 60, 70⟩ ⟨100⟩ ⟨900⟩
    (by decide) (by decide)

end Usbx
